import Mathlib

/-!
Verification of the Signalo citizen-signal service (src/main.py) against its
natural-language specification.  The Python source is shallowly embedded:
pure functions become Lean functions, the `/chat` endpoint becomes a pure
function of its inputs with the external text-generation collaborator and the
JSON parser passed in as explicit values.
-/

/-- Models Python `str.lower` on one character for the alphabets that occur in
the program: ASCII letters, the Latin-1 letters and the Cyrillic letters
`А`..`Я` and `Ѐ`..`Џ`.  All other code points are left unchanged. -/
def py_lower_char (c : Char) : Char :=
  if 'A' ≤ c ∧ c ≤ 'Z' then Char.ofNat (c.toNat + 32)
  else if 0xC0 ≤ c.toNat ∧ c.toNat ≤ 0xDE ∧ c.toNat ≠ 0xD7 then Char.ofNat (c.toNat + 32)
  else if 0x410 ≤ c.toNat ∧ c.toNat ≤ 0x42F then Char.ofNat (c.toNat + 0x20)
  else if 0x400 ≤ c.toNat ∧ c.toNat ≤ 0x40F then Char.ofNat (c.toNat + 0x50)
  else c

/-- Models Python `str.lower` (characterwise, see `py_lower_char`). -/
def py_lower (s : String) : String :=
  String.mk (s.toList.map py_lower_char)

/-- Models Python `c in s` for a single character. -/
def py_contains (s : String) (c : Char) : Bool :=
  s.toList.contains c

/-- Models Python `str.strip()`: drop leading and trailing whitespace. -/
def py_strip (s : String) : String :=
  String.mk (((s.toList.dropWhile Char.isWhitespace).reverse.dropWhile
    Char.isWhitespace).reverse)

/-- Splitting a character list at every occurrence of `sep`
(Python `str.split(sep)` for a one-character separator). -/
def split_on_char (sep : Char) : List Char → List (List Char)
  | [] => [[]]
  | a :: as =>
    let r := split_on_char sep as
    if a = sep then [] :: r
    else
      match r with
      | [] => [[a]]
      | g :: gs => (a :: g) :: gs

/-- Models Python `s.split(sep)` for a one-character separator. -/
def py_split (s : String) (sep : Char) : List String :=
  (split_on_char sep s.toList).map String.mk

/-- `normalize_location` from src/main.py: empty input stays empty, otherwise
`location.strip().lower()`. -/
def normalize_location (location : String) : String :=
  if location = "" then "" else py_lower (py_strip location)

/-- `location_matches` from src/main.py.  An absent organization field matches
anything.  If the organization's field contains `;` or `,`, the source splits
on the first of the two separators found (`;` takes precedence, mirroring the
`for sep in [';', ',']` loop) and tests normalized membership; otherwise it
compares the normalized strings. -/
def location_matches (user_location : String) (org_location : Option String) : Bool :=
  match org_location with
  | none => true
  | some org_loc =>
    if py_contains org_loc ';' || py_contains org_loc ',' then
      let sep := if py_contains org_loc ';' then ';' else ','
      ((py_split org_loc sep).map normalize_location).any
        (fun alt => normalize_location user_location == alt)
    else
      normalize_location user_location == normalize_location org_loc

/-- One row of the organization directory (`load_organizations` in
src/main.py); the two `special_territory` columns are never read by the
filtering logic and are omitted. -/
structure Organization where
  id : Nat
  name : String
  oblast : Option String
  obshtina : Option String
  grad : Option String
  rayon : Option String
deriving DecidableEq, Repr

/-- A (possibly partial) location query: the four optional arguments of
`filter_organizations_by_location`. -/
structure LocationQuery where
  oblast : Option String := none
  obshtina : Option String := none
  grad : Option String := none
  rayon : Option String := none
deriving DecidableEq, Repr

/-- Rule 1 of `filter_organizations_by_location`: only when both the
organization and the user specify an oblast must they match. -/
def oblast_rule (user_oblast : Option String) (org_oblast : Option String) : Bool :=
  match org_oblast, user_oblast with
  | some _, some u => location_matches u org_oblast
  | _, _ => true

/-- Rules 2-4 of `filter_organizations_by_location` (obshtina, grad, rayon all
have this identical shape in the source): if the user did not specify the
level, organizations that do specify it are excluded as too specific;
otherwise an organization that specifies the level must match. -/
def specific_level_rule (user_field : Option String) (org_field : Option String) : Bool :=
  match user_field with
  | none => org_field.isNone
  | some u =>
    match org_field with
    | none => true
    | some _ => location_matches u org_field

/-- The per-organization test applied by `filter_organizations_by_location`. -/
def org_passes_location (oblast obshtina grad rayon : Option String)
    (org : Organization) : Bool :=
  oblast_rule oblast org.oblast &&
  specific_level_rule obshtina org.obshtina &&
  specific_level_rule grad org.grad &&
  specific_level_rule rayon org.rayon

/-- `filter_organizations_by_location` from src/main.py, with the global
`ORGANIZATIONS` table passed explicitly.  The source appends survivors in
directory order, i.e. it is a filter. -/
def filter_organizations_by_location (orgs : List Organization)
    (oblast obshtina grad rayon : Option String) : List Organization :=
  orgs.filter (org_passes_location oblast obshtina grad rayon)

/-- "every location field the organization specifies matches the corresponding
field of the query (when the query specifies it)", per level: when the query
specifies a value it must `location_matches` the organization's field (an
absent organization field matches trivially). -/
def query_level_matches (user_field : Option String) (org_field : Option String) : Bool :=
  match user_field with
  | none => true
  | some u => location_matches u org_field

/-- All four levels of `query_level_matches`. -/
def matches_specified_fields (q : LocationQuery) (org : Organization) : Bool :=
  query_level_matches q.oblast org.oblast &&
  query_level_matches q.obshtina org.obshtina &&
  query_level_matches q.grad org.grad &&
  query_level_matches q.rayon org.rayon

/-- Depth of the deepest location field an organization specifies
(national = 0 < oblast = 1 < obshtina = 2 < grad = 3 < rayon = 4). -/
def org_depth (org : Organization) : Nat :=
  if org.rayon.isSome then 4
  else if org.grad.isSome then 3
  else if org.obshtina.isSome then 2
  else if org.oblast.isSome then 1
  else 0

/-- Depth of the deepest field a query specifies (same order as `org_depth`). -/
def query_depth (q : LocationQuery) : Nat :=
  if q.rayon.isSome then 4
  else if q.grad.isSome then 3
  else if q.obshtina.isSome then 2
  else if q.oblast.isSome then 1
  else 0

/-- Membership predicate following the spec's words for the filter invariant:
every specified field matches where the query specifies one, and the
organization specifies no field strictly deeper than the deepest field the
query specifies. -/
def spec_filter_pred (q : LocationQuery) (org : Organization) : Bool :=
  matches_specified_fields q org && decide (org_depth org ≤ query_depth q)

/-- Membership predicate actually implemented by the code: every specified
field matches where the query specifies one, and the organization specifies no
individual level among obshtina/grad/rayon that the query leaves unspecified
(an organization-side oblast is never "too specific"). -/
def code_filter_pred (q : LocationQuery) (org : Organization) : Bool :=
  query_level_matches q.oblast org.oblast &&
  (query_level_matches q.obshtina org.obshtina && (!org.obshtina.isSome || q.obshtina.isSome)) &&
  (query_level_matches q.grad org.grad && (!org.grad.isSome || q.grad.isSome)) &&
  (query_level_matches q.rayon org.rayon && (!org.rayon.isSome || q.rayon.isSome))

def empty_query : LocationQuery := {}

def org_national : Organization :=
  { id := 1, name := "National", oblast := none, obshtina := none, grad := none, rayon := none }

def org_oblast_plovdiv : Organization :=
  { id := 2, name := "Oblast Plovdiv", oblast := some "Plovdiv",
    obshtina := none, grad := none, rayon := none }

def org_grad_plovdiv : Organization :=
  { id := 3, name := "Grad Plovdiv", oblast := some "Plovdiv",
    obshtina := some "Plovdiv", grad := some "Plovdiv", rayon := none }

def org_rayon_zapaden : Organization :=
  { id := 4, name := "Rayon Zapaden", oblast := some "Plovdiv",
    obshtina := some "Plovdiv", grad := some "Plovdiv", rayon := some "Zapaden" }

def plovdiv_directory : List Organization :=
  [org_national, org_oblast_plovdiv, org_grad_plovdiv, org_rayon_zapaden]

/-- Organization whose obshtina lists two alternatives. -/
def org_multi_obshtina : Organization :=
  { id := 7, name := "Multi", oblast := none, obshtina := some "A;B", grad := none, rayon := none }

/-- One conversation turn (`Message` in src/main.py). -/
structure Message where
  role : String
  content : String
deriving DecidableEq, Repr

/-- `pat` is a leading segment of the character list. -/
def chars_lead : List Char → List Char → Bool
  | [], _ => true
  | _ :: _, [] => false
  | a :: as, b :: bs => a == b && chars_lead as bs

/-- `pat` occurs as a contiguous segment of the character list. -/
def chars_within (pat : List Char) : List Char → Bool
  | [] => pat.isEmpty
  | b :: bs => chars_lead pat (b :: bs) || chars_within pat bs

/-- Models Python's substring test `pat in s`. -/
def py_in (pat s : String) : Bool :=
  chars_within pat.toList s.toList

/-- The `location_db` table of `extract_location_from_messages` in
src/main.py, copied verbatim (the source file stores these names in a
mojibake encoding; the bytes here are identical to the source's). -/
def location_db : List (String × LocationQuery) :=
  [("–ø–ª–æ–≤–¥–∏–≤",
      { oblast := some "–ü–ª–æ–≤–¥–∏–≤", obshtina := some "–ü–ª–æ–≤–¥–∏–≤",
        grad := some "–ü–ª–æ–≤–¥–∏–≤" }),
   ("—Å–æ—Ñ–∏—è",
      { oblast := some "–°–æ—Ñ–∏—è-—Å—Ç–æ–ª–∏—Ü–∞", obshtina := some "–°–æ—Ñ–∏—è",
        grad := some "–°–æ—Ñ–∏—è" }),
   ("–≤–∞—Ä–Ω–∞",
      { oblast := some "–í–∞—Ä–Ω–∞", obshtina := some "–í–∞—Ä–Ω–∞",
        grad := some "–í–∞—Ä–Ω–∞" }),
   ("–±—É—Ä–≥–∞—Å",
      { oblast := some "–ë—É—Ä–≥–∞—Å", obshtina := some "–ë—É—Ä–≥–∞—Å",
        grad := some "–ë—É—Ä–≥–∞—Å" }),
   ("—Ä—É—Å–µ",
      { oblast := some "–†—É—Å–µ", obshtina := some "–†—É—Å–µ",
        grad := some "–†—É—Å–µ" }),
   ("—Å—Ç–∞—Ä–∞ –∑–∞–≥–æ—Ä–∞",
      { oblast := some "–°—Ç–∞—Ä–∞ –ó–∞–≥–æ—Ä–∞", obshtina := some "–°—Ç–∞—Ä–∞ –ó–∞–≥–æ—Ä–∞",
        grad := some "–°—Ç–∞—Ä–∞ –ó–∞–≥–æ—Ä–∞" }),
   ("–ø–ª–µ–≤–µ–Ω",
      { oblast := some "–ü–ª–µ–≤–µ–Ω", obshtina := some "–ü–ª–µ–≤–µ–Ω",
        grad := some "–ü–ª–µ–≤–µ–Ω" }),
   ("—Å–ª–∏–≤–µ–Ω",
      { oblast := some "–°–ª–∏–≤–µ–Ω", obshtina := some "–°–ª–∏–≤–µ–Ω",
        grad := some "–°–ª–∏–≤–µ–Ω" }),
   ("–¥–æ–±—Ä–∏—á",
      { oblast := some "–î–æ–±—Ä–∏—á", obshtina := some "–î–æ–±—Ä–∏—á",
        grad := some "–î–æ–±—Ä–∏—á" })]

/-- The `rayon_patterns` table of `extract_location_from_messages` in
src/main.py, copied verbatim. -/
def rayon_patterns : List (String × String) :=
  [("–∑–∞–ø–∞–¥–µ–Ω", "–†–∞–π–æ–Ω –ó–∞–ø–∞–¥–µ–Ω"),
   ("–∏–∑—Ç–æ—á–µ–Ω", "–†–∞–π–æ–Ω –ò–∑—Ç–æ—á–µ–Ω"),
   ("—Å–µ–≤–µ—Ä–µ–Ω", "–†–∞–π–æ–Ω –°–µ–≤–µ—Ä–µ–Ω"),
   ("—Ü–µ–Ω—Ç—Ä–∞–ª–µ–Ω", "–†–∞–π–æ–Ω –¶–µ–Ω—Ç—Ä–∞–ª–µ–Ω"),
   ("—Ç—Ä–∞–∫–∏—è", "–†–∞–π–æ–Ω –¢—Ä–∞–∫–∏—è"),
   ("—é–∂–µ–Ω", "–†–∞–π–æ–Ω –Æ–∂–µ–Ω"),
   ("–ª–æ–∑–µ–Ω–µ—Ü", "–õ–æ–∑–µ–Ω–µ—Ü"),
   ("–≤–∏—Ç–æ—à–∞", "–í–∏—Ç–æ—à–∞"),
   ("–º–ª–∞–¥–æ—Å—Ç", "–ú–ª–∞–¥–æ—Å—Ç"),
   ("–∞—Å–ø–∞—Ä—É—Ö–æ–≤–æ", "–†–∞–π–æ–Ω –ê—Å–ø–∞—Ä—É—Ö–æ–≤–æ"),
   ("–æ–¥–µ—Å–æ—Å", "–†–∞–π–æ–Ω –û–¥–µ—Å–æ—Å")]

/-- The inner city scan of `extract_location_from_messages`: first
`location_db` entry whose key occurs in the (lowered) content. -/
def find_city (content : String) : Option LocationQuery :=
  (location_db.find? (fun p => py_in p.1 content)).map (fun p => p.2)

/-- The inner rayon scan of `extract_location_from_messages`. -/
def find_rayon (content : String) : Option String :=
  (rayon_patterns.find? (fun p => py_in p.1 content)).map (fun p => p.2)

/-- The `for msg in reversed(messages[-6:])` loop body of
`extract_location_from_messages`: the argument is already reversed.  On the
first turn containing a known city the result is that city's triple, with the
rayon field filled from the first matching rayon pattern in the same turn. -/
def extract_scan : List Message → Option LocationQuery
  | [] => none
  | m :: rest =>
    let content := py_lower m.content
    match find_city content with
    | some loc => some { loc with rayon := find_rayon content }
    | none => extract_scan rest

/-- `extract_location_from_messages` from src/main.py: scan the last six
turns, most recent first. -/
def extract_location_from_messages (messages : List Message) : Option LocationQuery :=
  extract_scan ((messages.drop (messages.length - 6)).reverse)

/-- JSON values, as produced by the external JSON parser (`json.loads`).
Numbers are modelled as integers (the payloads the program inspects carry
only integer ids). -/
inductive Json where
  | null
  | bool (b : Bool)
  | num (n : Int)
  | str (s : String)
  | arr (elems : List Json)
  | obj (fields : List (String × Json))

/-- Key lookup in a parsed JSON object (Python `d[k]` / `k in d`). -/
def jlookup (fields : List (String × Json)) (k : String) : Option Json :=
  (fields.find? (fun p => p.1 == k)).map (fun p => p.2)

/-- Python dict assignment `d[k] = v`: replace the value in place if the key
exists, otherwise append the new key at the end. -/
def jset (fields : List (String × Json)) (k : String) (v : Json) :
    List (String × Json) :=
  if (fields.find? (fun p => p.1 == k)).isSome then
    fields.map (fun p => if p.1 == k then (k, v) else p)
  else fields ++ [(k, v)]

/-- Python `str()` of a JSON value, as interpolated into the f-string warning.
Only the scalar cases are ever exercised by the program's payloads; composite
values would render with Python's repr and are abbreviated here. -/
def py_str_of_json : Json → String
  | .null => "None"
  | .bool true => "True"
  | .bool false => "False"
  | .num n => toString n
  | .str s => s
  | .arr _ => "<list>"
  | .obj _ => "<dict>"

/-- Index of the first occurrence of `c` (Python `str.find`, `none` for -1). -/
def first_idx (c : Char) : List Char → Option Nat
  | [] => none
  | a :: as => if a = c then some 0 else (first_idx c as).map (· + 1)

/-- `extract_json_from_text` from src/main.py on a character list: take the
substring from the first `{` to the last `}` (found via the reversed list,
`stop` is Python's `end = text.rfind(sep) + 1 = length - rrev`), and hand it
to the external JSON parser; `none` on any failure. -/
def extract_json_core (parse : String → Option Json) (cs : List Char) : Option Json :=
  match first_idx '{' cs with
  | none => none
  | some start =>
    match first_idx '}' cs.reverse with
    | none => none
    | some rrev =>
      let stop := cs.length - rrev
      if start < stop then parse (String.mk ((cs.drop start).take (stop - start)))
      else none

/-- `extract_json_from_text` from src/main.py. -/
def extract_json_from_text (parse : String → Option Json) (text : String) : Option Json :=
  extract_json_core parse text.toList

/-- The four markers scanned for by the duplicate-signal guard in `chat`. -/
def signal_markers : List String :=
  ["\"agency_id\"", "\"title\"", "\"description\"", "\"agency\""]

/-- The duplicate-signal guard of `chat`: some assistant turn contains all
four markers. -/
def has_sent_marker (messages : List Message) : Bool :=
  messages.any (fun m =>
    m.role == "assistant" && signal_markers.all (fun mk => py_in mk m.content))

/-- Python `org['id'] == agency_id` for a JSON value (Python compares ints and
bools numerically; every other type compares unequal to an int). -/
def py_int_eq (idv : Nat) : Json → Bool
  | .num n => (idv : Int) == n
  | .bool b => (idv : Int) == (if b then (1 : Int) else 0)
  | _ => false

/-- `validate_agency_id` from src/main.py. -/
def validate_agency_id (agency_id : Json) (filtered_orgs : List Organization) : Bool :=
  match agency_id with
  | .null => false
  | aid => filtered_orgs.any (fun org => py_int_eq org.id aid)

/-- `loc.get(k)` of the signal's location object, for schema-conforming
(string-valued) fields; absent and `null` both give `none`. -/
def loc_field_str (lf : List (String × Json)) (k : String) : Option String :=
  match jlookup lf k with
  | some (Json.str s) => some s
  | _ => none

/-- The four location fields are each absent, `null` or a string.  When this
fails the source would raise inside `normalize_location` while filtering and
end the turn in the apology path; the model raises eagerly (see
`attach_validation`). -/
def loc_fields_ok (lf : List (String × Json)) : Bool :=
  ["oblast", "obshtina", "grad", "rayon"].all (fun k =>
    match jlookup lf k with
    | none => true
    | some Json.null => true
    | some (Json.str _) => true
    | some _ => false)

/-- The three required keys of a finalized candidate payload. -/
def has_required_keys (fields : List (String × Json)) : Bool :=
  ["title", "description", "agency"].all (fun k => (jlookup fields k).isSome)

def missing_agency_warning : String := "Missing agency_id"

/-- The f-string warning of `chat`: the offending id is interpolated. -/
def invalid_agency_warning (aid : Json) : String :=
  "Invalid agency_id " ++ py_str_of_json aid ++ " for location"

/-- The `if 'location' in signal_data` block of `chat`: re-filter against the
candidate's own declared location and attach a `validation_warning` when the
agency id is missing or not in the authoritative set.  `.error ()` models the
exception raised on a non-object location value (`loc.get` on a non-dict);
non-string location fields are modelled the same way (raised lazily in the
source, see `loc_fields_ok`). -/
def attach_validation (orgs : List Organization) (fields : List (String × Json)) :
    Except Unit (List (String × Json)) :=
  match jlookup fields "location" with
  | none => .ok fields
  | some (Json.obj lf) =>
    if loc_fields_ok lf then
      let final_filtered := filter_organizations_by_location orgs
        (loc_field_str lf "oblast") (loc_field_str lf "obshtina")
        (loc_field_str lf "grad") (loc_field_str lf "rayon")
      match jlookup fields "agency_id" with
      | none => .ok (jset fields "validation_warning" (Json.str missing_agency_warning))
      | some aid =>
        if validate_agency_id aid final_filtered then .ok fields
        else .ok (jset fields "validation_warning" (Json.str (invalid_agency_warning aid)))
    else .error ()
  | some _ => .error ()

/-- The response dictionary returned by `chat`; fields the source omits from a
given return statement keep their defaults. -/
structure ChatResult where
  signal_ready : Bool
  signal_sent : Bool
  message : String
  signal_data : Option Json := none
  filtered_org_count : Option Nat := none
  location_context : Option LocationQuery := none
  conversation_ended : Bool := false

/-- The duplicate-guard message of `chat` (verbatim source bytes). -/
def duplicate_signal_message : String :=
  "–°–∏–≥–Ω–∞–ª—ä—Ç –≤–µ—á–µ –±–µ—à–µ –∏–∑–ø—Ä–∞—Ç–µ–Ω. –ê–∫–æ –∏—Å–∫–∞—Ç–µ –¥–∞ –ø–æ–¥–∞–¥–µ—Ç–µ –Ω–æ–≤ —Å–∏–≥–Ω–∞–ª, –º–æ–ª—è –∑–∞–ø–æ—á–Ω–µ—Ç–µ –Ω–æ–≤ —Ä–∞–∑–≥–æ–≤–æ—Ä."

/-- The generic apology returned when the collaborator call raises. -/
def error_apology_message : String :=
  "–°—ä–∂–∞–ª—è–≤–∞–º, –≤—ä–∑–Ω–∏–∫–Ω–∞ –≥—Ä–µ—à–∫–∞. –ú–æ–ª—è –æ–ø–∏—Ç–∞–π—Ç–µ –æ—Ç–Ω–æ–≤–æ."

/-- The success message returned with a sent signal. -/
def success_message : String :=
  "‚úÖ –°–∏–≥–Ω–∞–ª—ä—Ç –±–µ—à–µ –∏–∑–ø—Ä–∞—Ç–µ–Ω —É—Å–ø–µ—à–Ω–æ! –ë–ª–∞–≥–æ–¥–∞—Ä–∏–º –≤–∏. –ê–∫–æ –∏—Å–∫–∞—Ç–µ –¥–∞ –ø–æ–¥–∞–¥–µ—Ç–µ –Ω–æ–≤ —Å–∏–≥–Ω–∞–ª, –º–æ–ª—è –∑–∞–ø–æ—á–Ω–µ—Ç–µ –Ω–æ–≤ —Ä–∞–∑–≥–æ–≤–æ—Ä."

/-- The early return of `chat` when the duplicate guard fires. -/
def duplicate_guard_response : ChatResult :=
  { signal_ready := false, signal_sent := true,
    message := duplicate_signal_message, conversation_ended := true }

/-- The `except` branch of `chat`. -/
def apology_response : ChatResult :=
  { signal_ready := false, signal_sent := false, message := error_apology_message }

/-- The non-finalized (`else`) return of `chat`: ordinary dialogue
continuation. -/
def dialogue_response (assistant_message : String)
    (location_context : Option LocationQuery) (filtered_count : Nat) : ChatResult :=
  { signal_ready := false, signal_sent := false, message := assistant_message,
    filtered_org_count :=
      if location_context.isSome then some filtered_count else none,
    location_context := location_context }

/-- The `/chat` endpoint of src/main.py as a pure function.  `orgs` is the
global `ORGANIZATIONS` table, `parse` the external JSON parser, and
`collaborator` the outcome of the external text-generation call (`.error`
models the call raising).  A supplied (truthy) `request.location_context` is
`some`; an absent or empty one is `none`. -/
def chat (orgs : List Organization) (parse : String → Option Json)
    (collaborator : Except Unit String)
    (messages : List Message) (req_location_context : Option LocationQuery) :
    ChatResult :=
  if has_sent_marker messages then duplicate_guard_response
  else
    let location_context :=
      req_location_context.orElse (fun _ => extract_location_from_messages messages)
    let filtered_orgs :=
      match location_context with
      | some lc => filter_organizations_by_location orgs lc.oblast lc.obshtina lc.grad lc.rayon
      | none => orgs
    match collaborator with
    | .error _ => apology_response
    | .ok assistant_message =>
      match extract_json_from_text parse assistant_message with
      | some (Json.obj fields) =>
        if has_required_keys fields then
          match attach_validation orgs fields with
          | .ok fields2 =>
            { signal_ready := true, signal_sent := true,
              signal_data := some (Json.obj fields2),
              message := success_message,
              filtered_org_count := some filtered_orgs.length,
              conversation_ended := true }
          | .error _ => apology_response
        else dialogue_response assistant_message location_context filtered_orgs.length
      | _ => dialogue_response assistant_message location_context filtered_orgs.length

/-- A staged media artifact (Media Staging Store, spec only). -/
structure StagedMedia where
  media_id : Nat
  batch_id : Nat
  media_type : String
  original_filename : String
  mime_type : String
  byte_size : Nat
deriving DecidableEq, Repr

/-- The descriptor returned by `commit` for one attached media item. -/
structure MediaDescriptor where
  media_id : Nat
  filename : String
deriving DecidableEq, Repr

/-- The two areas of the Media Staging Store: staged artifacts keyed by
globally unique handles, and committed descriptors keyed by signal id. -/
structure MediaStore where
  staged : List StagedMedia
  committed : List (Nat × MediaDescriptor)
deriving DecidableEq, Repr

/-- Modelled from the spec: `commit(signal_id, media_ids)` of the Media
Staging Store (spec section 4.7) has no implementation under src/.  For each
requested handle in order, locate its staged artifact, move it into the
permanent area scoped to `signal_id`, and emit a `{media_id, filename}`
descriptor; unmatched handles are silently skipped. -/
def media_commit (store : MediaStore) (signal_id : Nat) :
    List Nat → MediaStore × List MediaDescriptor
  | [] => (store, [])
  | i :: rest =>
    match store.staged.find? (fun m => m.media_id == i) with
    | none => media_commit store signal_id rest
    | some m =>
      let d : MediaDescriptor := { media_id := m.media_id, filename := m.original_filename }
      let next := media_commit
        { staged := store.staged.filter (fun x => x.media_id != i),
          committed := store.committed ++ [(signal_id, d)] } signal_id rest
      (next.1, d :: next.2)

/-- The descriptor `commit` produces for one requested handle: that of the
staged artifact with that handle, if any. -/
def staged_descriptor (store : MediaStore) (i : Nat) : Option MediaDescriptor :=
  (store.staged.find? (fun m => m.media_id == i)).map
    (fun m => { media_id := m.media_id, filename := m.original_filename })

/-- Two staged media items and an empty permanent area, for the end-to-end
commit scenario. -/
def staged_photo : StagedMedia :=
  { media_id := 10, batch_id := 1, media_type := "image",
    original_filename := "a.jpg", mime_type := "image/jpeg", byte_size := 100 }

def staged_clip : StagedMedia :=
  { media_id := 11, batch_id := 1, media_type := "video",
    original_filename := "b.mp4", mime_type := "video/mp4", byte_size := 200 }

def media_store_ab : MediaStore :=
  { staged := [staged_photo, staged_clip], committed := [] }

def quiet_turn : Message := { role := "user", content := "ok" }

/-- A turn mentioning the Plovdiv key of `location_db` (verbatim source
bytes). -/
def plovdiv_turn : Message := { role := "user", content := "–ø–ª–æ–≤–¥–∏–≤" }

/-- An assistant turn carrying all four duplicate-guard markers. -/
def sent_turn : Message :=
  { role := "assistant",
    content := "\"title\" \"description\" \"agency\" \"agency_id\"" }

/-- The `validation_warning` entry of a response's signal payload, if any. -/
def result_warning (r : ChatResult) : Option Json :=
  match r.signal_data with
  | some (Json.obj f) => jlookup f "validation_warning"
  | _ => none

/-- A finalized candidate whose agency id (999) is not in the authoritative
set for its own (empty-object) location. -/
def invalid_id_fields : List (String × Json) :=
  [("title", Json.str "t"), ("description", Json.str "d"),
   ("agency", Json.str "a"), ("agency_id", Json.num 999),
   ("location", Json.obj [])]

/-- A parser recognizing exactly the reply used with `invalid_id_fields`. -/
def parse_invalid_id : String → Option Json :=
  fun s => if s = "{p}" then some (Json.obj invalid_id_fields) else none

/-- A finalized candidate with no `agency_id` at all. -/
def missing_id_fields : List (String × Json) :=
  [("title", Json.str "t"), ("description", Json.str "d"),
   ("agency", Json.str "a"), ("location", Json.obj [])]

/-- A parser recognizing exactly the reply used with `missing_id_fields`. -/
def parse_missing_id : String → Option Json :=
  fun s => if s = "{q}" then some (Json.obj missing_id_fields) else none

/-- A parser that never yields a payload. -/
def parse_never : String → Option Json := fun _ => none

lemma oblast_rule_eq (qo oo : Option String) :
    oblast_rule qo oo = query_level_matches qo oo := by
  cases qo <;> cases oo <;> rfl

lemma specific_level_rule_eq (qf orf : Option String) :
    specific_level_rule qf orf =
      (query_level_matches qf orf && (!orf.isSome || qf.isSome)) := by
  cases qf <;> cases orf <;> simp [specific_level_rule, query_level_matches, location_matches]

lemma org_passes_location_eq (q : LocationQuery) (org : Organization) :
    org_passes_location q.oblast q.obshtina q.grad q.rayon org = code_filter_pred q org := by
  simp only [org_passes_location, code_filter_pred, oblast_rule_eq, specific_level_rule_eq]

/-- C2: on the four-organization Plovdiv directory, the oblast query returns
exactly organizations 1 and 2, the oblast+obshtina+grad query exactly 1-3,
and the full query with rayon Zapaden exactly 1-4, in directory order. -/
theorem C2_plovdiv_scenario :
    filter_organizations_by_location plovdiv_directory (some "Plovdiv") none none none
      = [org_national, org_oblast_plovdiv]
    ∧ filter_organizations_by_location plovdiv_directory
        (some "Plovdiv") (some "Plovdiv") (some "Plovdiv") none
      = [org_national, org_oblast_plovdiv, org_grad_plovdiv]
    ∧ filter_organizations_by_location plovdiv_directory
        (some "Plovdiv") (some "Plovdiv") (some "Plovdiv") (some "Zapaden")
      = [org_national, org_oblast_plovdiv, org_grad_plovdiv, org_rayon_zapaden] :=
  ⟨by decide, by decide, by decide⟩

/-- C10: the completely empty location query returns exactly the
organizations whose obshtina, grad and rayon are all absent (so oblast-only
organizations are included), preserving directory order; on the Plovdiv
directory this is organizations 1 and 2, not the whole directory and not only
the national one. -/
theorem C10_empty_query_filter :
    (∀ orgs : List Organization,
        filter_organizations_by_location orgs none none none none
          = orgs.filter (fun org =>
              org.obshtina.isNone && org.grad.isNone && org.rayon.isNone))
    ∧ filter_organizations_by_location plovdiv_directory none none none none
        = [org_national, org_oblast_plovdiv] := by
  constructor
  · intro orgs
    unfold filter_organizations_by_location
    apply List.filter_congr
    intro org _
    rcases org with ⟨i, n, ob, obs, g, r⟩
    cases ob <;> rfl
  · decide

/-- C3: two location strings match iff their case-folded, trimmed forms are
equal; when the organization's field contains a separator it is split (`;`
first, else `,`) into alternatives and the query must normalize-equal one of
them; concretely, an organization with obshtina "A;B" survives the obshtina
queries "b" and "a" but not "c". -/
theorem C3_match_rule :
    (∀ u o : String, py_contains o ';' = false → py_contains o ',' = false →
        location_matches u (some o) = (normalize_location u == normalize_location o))
    ∧ (∀ u o : String, py_contains o ';' = true →
        location_matches u (some o)
          = ((py_split o ';').map normalize_location).any
              (fun alt => normalize_location u == alt))
    ∧ (∀ u o : String, py_contains o ';' = false → py_contains o ',' = true →
        location_matches u (some o)
          = ((py_split o ',').map normalize_location).any
              (fun alt => normalize_location u == alt))
    ∧ filter_organizations_by_location [org_multi_obshtina] none (some "b") none none
        = [org_multi_obshtina]
    ∧ filter_organizations_by_location [org_multi_obshtina] none (some "a") none none
        = [org_multi_obshtina]
    ∧ filter_organizations_by_location [org_multi_obshtina] none (some "c") none none
        = [] := by
  refine ⟨?_, ?_, ?_, by decide, by decide, by decide⟩
  · intro u o h1 h2
    simp [location_matches, h1, h2]
  · intro u o h1
    simp [location_matches, h1]
  · intro u o h1 h2
    simp [location_matches, h1, h2]

/-- Witness for C3 at the concrete separated field "A;B" and query "b". -/
theorem C3_match_rule_witness :
    py_contains "A;B" ';' = true
    ∧ location_matches "b" (some "A;B")
        = ((py_split "A;B" ';').map normalize_location).any
            (fun alt => normalize_location "b" == alt) :=
  ⟨by decide, C3_match_rule.2.1 "b" "A;B" (by decide)⟩

/-- C1 counterexample: the spec's invariant (match on every field the query
specifies, and nothing strictly deeper than the query's deepest field) does
not characterize the filter.  The empty query is at depth national, yet an
oblast-only organization — strictly deeper — is returned by the code. -/
theorem C1_spec_pred_counterexample :
    ¬ (∀ (orgs : List Organization) (q : LocationQuery) (org : Organization),
        org ∈ orgs →
        (org ∈ filter_organizations_by_location orgs q.oblast q.obshtina q.grad q.rayon
          ↔ spec_filter_pred q org = true)) := by
  intro h
  have hmem : org_oblast_plovdiv ∈
      filter_organizations_by_location [org_oblast_plovdiv]
        empty_query.oblast empty_query.obshtina empty_query.grad empty_query.rayon := by
    decide
  have h2 := (h [org_oblast_plovdiv] empty_query org_oblast_plovdiv (by decide)).mp hmem
  exact absurd h2 (by decide)

/-- C1 amended: an organization of the directory appears in the filter result
iff every location field the query specifies matches the organization's
corresponding field, and the organization specifies no individual level among
obshtina, grad, rayon that the query leaves unspecified (an organization-side
oblast alone is never excluded as too specific). -/
theorem C1_filter_membership (orgs : List Organization) (q : LocationQuery)
    (org : Organization) (h : org ∈ orgs) :
    org ∈ filter_organizations_by_location orgs q.oblast q.obshtina q.grad q.rayon
      ↔ code_filter_pred q org = true := by
  rw [filter_organizations_by_location, List.mem_filter, org_passes_location_eq]
  exact ⟨fun hm => hm.2, fun hc => ⟨h, hc⟩⟩

/-- Witness for C1's amended membership characterization on the Plovdiv
directory with the oblast-only query. -/
theorem C1_filter_membership_witness :
    org_oblast_plovdiv ∈ plovdiv_directory
    ∧ (org_oblast_plovdiv ∈ filter_organizations_by_location plovdiv_directory
          (some "Plovdiv") none none none
        ↔ code_filter_pred { oblast := some "Plovdiv" } org_oblast_plovdiv = true) :=
  ⟨by decide,
   C1_filter_membership plovdiv_directory { oblast := some "Plovdiv" }
     org_oblast_plovdiv (by decide)⟩

lemma find_city_none (c : String) (h : ∀ p ∈ location_db, py_in p.1 c = false) :
    find_city c = none := by
  simp only [find_city, Option.map_eq_none', List.find?_eq_none]
  intro p hp
  simp [h p hp]

lemma extract_scan_none (l : List Message)
    (h : ∀ m ∈ l, find_city (py_lower m.content) = none) :
    extract_scan l = none := by
  induction l with
  | nil => rfl
  | cons m rest ih =>
    have hm := h m (List.mem_cons_self m rest)
    simp only [extract_scan, hm]
    exact ih (fun x hx => h x (List.mem_cons_of_mem _ hx))

/-- C6: location extraction looks at most at the last six turns (prepending
any earlier turns to a six-turn window never changes the result, so a city
mentioned only in turn 7-from-the-end is never extracted), and when no
examined turn contains a known city key the extractor returns no location. -/
theorem C6_extraction_window :
    (∀ earlier window : List Message, window.length = 6 →
        extract_location_from_messages (earlier ++ window)
          = extract_location_from_messages window)
    ∧ (∀ messages : List Message,
        (∀ m ∈ messages.drop (messages.length - 6),
            ∀ p ∈ location_db, py_in p.1 (py_lower m.content) = false) →
        extract_location_from_messages messages = none) := by
  constructor
  · intro earlier window hlen
    unfold extract_location_from_messages
    rw [List.length_append, hlen, Nat.add_sub_cancel, List.drop_left,
      Nat.sub_self, List.drop_zero]
  · intro messages h
    unfold extract_location_from_messages
    apply extract_scan_none
    intro m hm
    exact find_city_none _ (h m (List.mem_reverse.mp hm))

/-- Witness for C6: a conversation whose only city mention sits in the
seventh turn from the end yields no location. -/
theorem C6_extraction_window_witness :
    extract_location_from_messages (plovdiv_turn :: List.replicate 6 quiet_turn) = none := by
  have h1 := C6_extraction_window.1 [plovdiv_turn] (List.replicate 6 quiet_turn) (by decide)
  have h2 := C6_extraction_window.2 (List.replicate 6 quiet_turn) (by decide)
  exact h1.trans h2

/-- C4: whenever some prior assistant turn carries all four required-key
markers (the duplicate-guard's detection of an already-SENT conversation),
`chat` returns the duplicate-guard response — conversation ended, no new
signal payload — regardless of directory, parser, collaborator outcome or
supplied location context. -/
theorem C4_duplicate_guard (orgs : List Organization) (parse : String → Option Json)
    (collaborator : Except Unit String) (messages : List Message)
    (req_location_context : Option LocationQuery) (m : Message)
    (hmem : m ∈ messages) (hrole : m.role = "assistant")
    (hmarks : ∀ mk ∈ signal_markers, py_in mk m.content = true) :
    chat orgs parse collaborator messages req_location_context = duplicate_guard_response
    ∧ (chat orgs parse collaborator messages req_location_context).signal_data = none := by
  have hg : has_sent_marker messages = true := by
    rw [has_sent_marker, List.any_eq_true]
    refine ⟨m, hmem, ?_⟩
    rw [Bool.and_eq_true]
    refine ⟨by simp [hrole], ?_⟩
    rw [List.all_eq_true]
    exact hmarks
  constructor
  · simp [chat, hg]
  · simp [chat, hg, duplicate_guard_response]

/-- Witness for C4: a one-turn conversation whose assistant message contains
the four markers is refused with the duplicate-guard response. -/
theorem C4_duplicate_guard_witness :
    chat [] parse_never (Except.ok "hello") [sent_turn] none = duplicate_guard_response
    ∧ (chat [] parse_never (Except.ok "hello") [sent_turn] none).signal_data = none :=
  C4_duplicate_guard [] parse_never (Except.ok "hello") [sent_turn] none sent_turn
    (List.mem_singleton.mpr rfl) rfl (by decide)

/-- C8: when the collaborator call fails and the duplicate guard has not
fired, `chat` returns the generic apology: no signal payload, not ready, not
sent, conversation not ended — the turn changes nothing. -/
theorem C8_collaborator_failure (orgs : List Organization) (parse : String → Option Json)
    (messages : List Message) (req_location_context : Option LocationQuery)
    (hguard : has_sent_marker messages = false) :
    chat orgs parse (Except.error ()) messages req_location_context = apology_response
    ∧ apology_response.signal_ready = false
    ∧ apology_response.signal_sent = false
    ∧ apology_response.signal_data = none
    ∧ apology_response.conversation_ended = false := by
  refine ⟨?_, rfl, rfl, rfl, rfl⟩
  simp [chat, hguard]

/-- Witness for C8 on the empty conversation with an empty directory. -/
theorem C8_collaborator_failure_witness :
    chat [] parse_never (Except.error ()) [] none = apology_response
    ∧ apology_response.signal_ready = false
    ∧ apology_response.signal_sent = false
    ∧ apology_response.signal_data = none
    ∧ apology_response.conversation_ended = false :=
  C8_collaborator_failure [] parse_never [] none rfl

lemma first_idx_none (c : Char) (l : List Char) (h : ∀ x ∈ l, x ≠ c) :
    first_idx c l = none := by
  induction l with
  | nil => rfl
  | cons a as ih =>
    have ha : a ≠ c := h a (List.mem_cons_self a as)
    simp [first_idx, ha, ih (fun x hx => h x (List.mem_cons_of_mem _ hx))]

lemma first_idx_skip (c : Char) (a rest : List Char) (h : ∀ x ∈ a, x ≠ c) :
    first_idx c (a ++ c :: rest) = some a.length := by
  induction a with
  | nil => simp [first_idx]
  | cons x xs ih =>
    have hx : x ≠ c := h x (List.mem_cons_self x xs)
    simp [first_idx, hx, ih (fun y hy => h y (List.mem_cons_of_mem _ hy))]

lemma extract_json_core_eq (parse : String → Option Json) (a mid b : List Char)
    (ha : ∀ x ∈ a, x ≠ '{') (hb : ∀ x ∈ b, x ≠ '}') :
    extract_json_core parse (a ++ '{' :: (mid ++ '}' :: b))
      = parse (String.mk ('{' :: (mid ++ ['}']))) := by
  have h1 : first_idx '{' (a ++ '{' :: (mid ++ '}' :: b)) = some a.length :=
    first_idx_skip '{' a _ ha
  have h2 : first_idx '}' ((a ++ '{' :: (mid ++ '}' :: b)).reverse)
      = some b.reverse.length := by
    rw [show (a ++ '{' :: (mid ++ '}' :: b)).reverse
        = b.reverse ++ '}' :: (mid.reverse ++ '{' :: a.reverse) by simp]
    exact first_idx_skip '}' b.reverse _ (fun x hx => hb x (List.mem_reverse.mp hx))
  simp only [extract_json_core, h1, h2]
  have hlen : (a ++ '{' :: (mid ++ '}' :: b)).length - b.reverse.length
      = a.length + (mid.length + 2) := by
    simp [List.length_append]
    omega
  rw [hlen]
  rw [if_pos (by omega)]
  have hdrop : (a ++ '{' :: (mid ++ '}' :: b)).drop a.length = '{' :: (mid ++ '}' :: b) :=
    List.drop_left a _
  have harith : a.length + (mid.length + 2) - a.length = mid.length + 2 := by omega
  rw [hdrop, harith]
  have htake : ('{' :: (mid ++ '}' :: b)).take (mid.length + 2) = '{' :: (mid ++ ['}']) := by
    have hsplit : '{' :: (mid ++ '}' :: b) = ('{' :: (mid ++ ['}'])) ++ b := by simp
    rw [hsplit]
    have hl : ('{' :: (mid ++ ['}'])).length = mid.length + 2 := by simp
    rw [← hl, List.take_left]
  rw [htake]

/-- C7: the signal extractor hands the parser exactly the substring from the
first opening brace to the last closing brace (and yields nothing when no
opening brace exists); on a turn whose reply yields no parsed payload or a
payload missing one of title/description/agency, `chat` continues the
dialogue with the reply itself — not ready, not sent, no payload, no error —
while a payload with all three keys that passes the validation step is
finalized and sent. -/
theorem C7_signal_extraction :
    (∀ (parse : String → Option Json) (a mid b : List Char),
        (∀ x ∈ a, x ≠ '{') → (∀ x ∈ b, x ≠ '}') →
        extract_json_core parse (a ++ '{' :: (mid ++ '}' :: b))
          = parse (String.mk ('{' :: (mid ++ ['}']))))
    ∧ (∀ (parse : String → Option Json) (text : String),
        (∀ x ∈ text.toList, x ≠ '{') →
        extract_json_from_text parse text = none)
    ∧ (∀ (orgs : List Organization) (parse : String → Option Json)
          (messages : List Message) (lc : Option LocationQuery) (reply : String),
        has_sent_marker messages = false →
        extract_json_from_text parse reply = none →
        (chat orgs parse (Except.ok reply) messages lc).signal_ready = false
        ∧ (chat orgs parse (Except.ok reply) messages lc).signal_sent = false
        ∧ (chat orgs parse (Except.ok reply) messages lc).message = reply
        ∧ (chat orgs parse (Except.ok reply) messages lc).signal_data = none)
    ∧ (∀ (orgs : List Organization) (parse : String → Option Json)
          (messages : List Message) (lc : Option LocationQuery) (reply : String)
          (fields : List (String × Json)),
        has_sent_marker messages = false →
        extract_json_from_text parse reply = some (Json.obj fields) →
        has_required_keys fields = false →
        (chat orgs parse (Except.ok reply) messages lc).signal_ready = false
        ∧ (chat orgs parse (Except.ok reply) messages lc).signal_sent = false
        ∧ (chat orgs parse (Except.ok reply) messages lc).message = reply
        ∧ (chat orgs parse (Except.ok reply) messages lc).signal_data = none)
    ∧ (∀ (orgs : List Organization) (parse : String → Option Json)
          (messages : List Message) (lc : Option LocationQuery) (reply : String)
          (fields fields2 : List (String × Json)),
        has_sent_marker messages = false →
        extract_json_from_text parse reply = some (Json.obj fields) →
        has_required_keys fields = true →
        attach_validation orgs fields = Except.ok fields2 →
        (chat orgs parse (Except.ok reply) messages lc).signal_ready = true
        ∧ (chat orgs parse (Except.ok reply) messages lc).signal_sent = true
        ∧ (chat orgs parse (Except.ok reply) messages lc).signal_data
            = some (Json.obj fields2)) := by
  refine ⟨extract_json_core_eq, ?_, ?_, ?_, ?_⟩
  · intro parse text h
    unfold extract_json_from_text
    simp [extract_json_core, first_idx_none '{' text.data h]
  · intro orgs parse messages lc reply hguard hext
    refine ⟨?_, ?_, ?_, ?_⟩ <;> simp [chat, hguard, hext, dialogue_response]
  · intro orgs parse messages lc reply fields hguard hext hkeys
    refine ⟨?_, ?_, ?_, ?_⟩ <;> simp [chat, hguard, hext, hkeys, dialogue_response]
  · intro orgs parse messages lc reply fields fields2 hguard hext hkeys hval
    refine ⟨?_, ?_, ?_⟩ <;> simp [chat, hguard, hext, hkeys, hval]

/-- Witness for C7: a braceless reply with a parser that yields nothing is
ordinary dialogue continuation. -/
theorem C7_signal_extraction_witness :
    (chat [] parse_never (Except.ok "hi") [] none).signal_ready = false
    ∧ (chat [] parse_never (Except.ok "hi") [] none).signal_sent = false
    ∧ (chat [] parse_never (Except.ok "hi") [] none).message = "hi"
    ∧ (chat [] parse_never (Except.ok "hi") [] none).signal_data = none :=
  C7_signal_extraction.2.2.1 [] parse_never [] none "hi" rfl rfl

/-- C5 counterexample: the code's invalid-agency warning interpolates the
offending id — it attaches "Invalid agency_id 999 for location", not exactly
"Invalid agency_id for location" as the claim states (the signal is
nevertheless sent). -/
theorem C5_warning_counterexample :
    result_warning (chat [org_national] parse_invalid_id (Except.ok "{p}") [] none)
      = some (Json.str "Invalid agency_id 999 for location")
    ∧ (chat [org_national] parse_invalid_id (Except.ok "{p}") [] none).signal_sent = true
    ∧ "Invalid agency_id 999 for location" ≠ "Invalid agency_id for location" :=
  ⟨rfl, rfl, by decide⟩

/-- C5 amended: for a finalized candidate whose declared location is a
structured object with string-or-absent fields, the validator re-runs the
filter on that location and the sent signal carries exactly the warning
"Missing agency_id" when the candidate lacks an agency_id, exactly the
warning "Invalid agency_id {id} for location" (with the offending id
interpolated) when the id is not in the authoritative set, and no warning
otherwise; in every case the signal is sent. -/
theorem C5_agency_validation (orgs : List Organization) (parse : String → Option Json)
    (messages : List Message) (lc : Option LocationQuery) (reply : String)
    (fields lf : List (String × Json))
    (hguard : has_sent_marker messages = false)
    (hext : extract_json_from_text parse reply = some (Json.obj fields))
    (hkeys : has_required_keys fields = true)
    (hloc : jlookup fields "location" = some (Json.obj lf))
    (hlf : loc_fields_ok lf = true) :
    (chat orgs parse (Except.ok reply) messages lc).signal_sent = true
    ∧ (chat orgs parse (Except.ok reply) messages lc).signal_ready = true
    ∧ (jlookup fields "agency_id" = none →
        (chat orgs parse (Except.ok reply) messages lc).signal_data
          = some (Json.obj (jset fields "validation_warning"
              (Json.str missing_agency_warning))))
    ∧ (∀ aid, jlookup fields "agency_id" = some aid →
        validate_agency_id aid (filter_organizations_by_location orgs
            (loc_field_str lf "oblast") (loc_field_str lf "obshtina")
            (loc_field_str lf "grad") (loc_field_str lf "rayon")) = false →
        (chat orgs parse (Except.ok reply) messages lc).signal_data
          = some (Json.obj (jset fields "validation_warning"
              (Json.str (invalid_agency_warning aid)))))
    ∧ (∀ aid, jlookup fields "agency_id" = some aid →
        validate_agency_id aid (filter_organizations_by_location orgs
            (loc_field_str lf "oblast") (loc_field_str lf "obshtina")
            (loc_field_str lf "grad") (loc_field_str lf "rayon")) = true →
        (chat orgs parse (Except.ok reply) messages lc).signal_data
          = some (Json.obj fields)) := by
  have hval : ∀ fields2, attach_validation orgs fields = Except.ok fields2 →
      (chat orgs parse (Except.ok reply) messages lc).signal_sent = true
      ∧ (chat orgs parse (Except.ok reply) messages lc).signal_ready = true
      ∧ (chat orgs parse (Except.ok reply) messages lc).signal_data
          = some (Json.obj fields2) := by
    intro fields2 hv
    refine ⟨?_, ?_, ?_⟩ <;> simp [chat, hguard, hext, hkeys, hv]
  refine ⟨?_, ?_, ?_, ?_, ?_⟩
  · rcases hagid : jlookup fields "agency_id" with _ | aid
    · exact (hval _ (show attach_validation orgs fields = Except.ok
          (jset fields "validation_warning" (Json.str missing_agency_warning)) by
        simp [attach_validation, hloc, hlf, hagid])).1
    · rcases hv : validate_agency_id aid (filter_organizations_by_location orgs
          (loc_field_str lf "oblast") (loc_field_str lf "obshtina")
          (loc_field_str lf "grad") (loc_field_str lf "rayon")) with _ | _
      · exact (hval _ (show attach_validation orgs fields = Except.ok
              (jset fields "validation_warning" (Json.str (invalid_agency_warning aid))) by
            simp [attach_validation, hloc, hlf, hagid, hv])).1
      · exact (hval _ (show attach_validation orgs fields = Except.ok fields by
            simp [attach_validation, hloc, hlf, hagid, hv])).1
  · rcases hagid : jlookup fields "agency_id" with _ | aid
    · exact (hval _ (show attach_validation orgs fields = Except.ok
          (jset fields "validation_warning" (Json.str missing_agency_warning)) by
        simp [attach_validation, hloc, hlf, hagid])).2.1
    · rcases hv : validate_agency_id aid (filter_organizations_by_location orgs
          (loc_field_str lf "oblast") (loc_field_str lf "obshtina")
          (loc_field_str lf "grad") (loc_field_str lf "rayon")) with _ | _
      · exact (hval _ (show attach_validation orgs fields = Except.ok
              (jset fields "validation_warning" (Json.str (invalid_agency_warning aid))) by
            simp [attach_validation, hloc, hlf, hagid, hv])).2.1
      · exact (hval _ (show attach_validation orgs fields = Except.ok fields by
            simp [attach_validation, hloc, hlf, hagid, hv])).2.1
  · intro hagid
    exact (hval _ (show attach_validation orgs fields = Except.ok
          (jset fields "validation_warning" (Json.str missing_agency_warning)) by
        simp [attach_validation, hloc, hlf, hagid])).2.2
  · intro aid hagid hv
    exact (hval _ (show attach_validation orgs fields = Except.ok
        (jset fields "validation_warning" (Json.str (invalid_agency_warning aid))) by
      simp [attach_validation, hloc, hlf, hagid, hv])).2.2
  · intro aid hagid hv
    exact (hval _ (show attach_validation orgs fields = Except.ok fields by
      simp [attach_validation, hloc, hlf, hagid, hv])).2.2

lemma find?_filter_eq {α : Type} (p q : α → Bool) (l : List α)
    (h : ∀ x, p x = true → q x = true) :
    (l.filter q).find? p = l.find? p := by
  induction l with
  | nil => rfl
  | cons x xs ih =>
    cases hp : p x with
    | true =>
      rw [List.filter_cons_of_pos (h x hp), List.find?_cons_of_pos _ hp,
        List.find?_cons_of_pos _ hp]
    | false =>
      cases hq : q x with
      | true =>
        rw [List.filter_cons_of_pos hq, List.find?_cons_of_neg _ (by simp [hp]),
          List.find?_cons_of_neg _ (by simp [hp])]
        exact ih
      | false =>
        rw [List.filter_cons_of_neg (by simp [hq]), List.find?_cons_of_neg _ (by simp [hp])]
        exact ih

lemma filterMap_congr_eq {α β : Type} (f g : α → Option β) (l : List α)
    (h : ∀ a ∈ l, f a = g a) : l.filterMap f = l.filterMap g := by
  induction l with
  | nil => rfl
  | cons x xs ih =>
    rw [List.filterMap_cons, List.filterMap_cons, h x (List.mem_cons_self x xs),
      ih (fun a ha => h a (List.mem_cons_of_mem _ ha))]

lemma media_commit_nodup_spec (store : MediaStore) (signal_id : Nat)
    (media_ids : List Nat) (hnd : media_ids.Nodup) :
    (media_commit store signal_id media_ids).2
      = media_ids.filterMap (staged_descriptor store)
    ∧ (media_commit store signal_id media_ids).1.committed
      = store.committed
        ++ (media_ids.filterMap (staged_descriptor store)).map (fun d => (signal_id, d)) := by
  induction media_ids generalizing store with
  | nil => simp [media_commit]
  | cons i rest ih =>
    obtain ⟨hi, hr⟩ := List.nodup_cons.mp hnd
    cases hf : store.staged.find? (fun m => m.media_id == i) with
    | none =>
      have hdesc : staged_descriptor store i = none := by
        simp [staged_descriptor, hf]
      have hrec := ih store hr
      simp only [media_commit, hf, List.filterMap_cons, hdesc]
      exact hrec
    | some m =>
      have hdesc : staged_descriptor store i
          = some { media_id := m.media_id, filename := m.original_filename } := by
        simp [staged_descriptor, hf]
      have hkey : ∀ s2 : MediaStore,
          s2.staged = store.staged.filter (fun x => x.media_id != i) →
          ∀ j ∈ rest, staged_descriptor s2 j = staged_descriptor store j := by
        intro s2 hs2 j hj
        have hji : j ≠ i := fun he => hi (he ▸ hj)
        simp only [staged_descriptor, hs2]
        rw [find?_filter_eq]
        intro x hx
        have hx2 : x.media_id = j := by simpa using hx
        simp [hx2, hji]
      have hrec := ih ⟨store.staged.filter (fun x => x.media_id != i),
        store.committed ++ [(signal_id, ⟨m.media_id, m.original_filename⟩)]⟩ hr
      have hk := hkey ⟨store.staged.filter (fun x => x.media_id != i),
        store.committed ++ [(signal_id, ⟨m.media_id, m.original_filename⟩)]⟩ rfl
      simp only [media_commit, hf, List.filterMap_cons, hdesc]
      constructor
      · rw [hrec.1, filterMap_congr_eq _ _ _ hk]
      · rw [hrec.2, filterMap_congr_eq _ _ _ hk]
        simp

/-- C5 witness: a finalized candidate with a location but no agency_id is
sent with exactly the "Missing agency_id" warning attached. -/
theorem C5_agency_validation_witness :
    (chat [org_national] parse_missing_id (Except.ok "{q}") [] none).signal_sent = true
    ∧ (chat [org_national] parse_missing_id (Except.ok "{q}") [] none).signal_data
        = some (Json.obj (jset missing_id_fields "validation_warning"
            (Json.str missing_agency_warning))) := by
  have h := C5_agency_validation [org_national] parse_missing_id [] none "{q}"
    missing_id_fields [] rfl rfl rfl rfl rfl
  exact ⟨h.1, h.2.2.1 rfl⟩

/-- C9: handles with no staged artifact are silently skipped by `commit`
(no error, store unchanged); for a duplicate-free request the returned
descriptors are exactly those of the matched handles, committed in order
under the signal id; staging two items and committing one handle yields
exactly that one descriptor while the other artifact stays staged. -/
theorem C9_commit_media :
    (∀ (store : MediaStore) (signal_id : Nat) (media_ids : List Nat),
        (∀ i ∈ media_ids, staged_descriptor store i = none) →
        media_commit store signal_id media_ids = (store, []))
    ∧ (∀ (store : MediaStore) (signal_id : Nat) (media_ids : List Nat),
        media_ids.Nodup →
        (media_commit store signal_id media_ids).2
          = media_ids.filterMap (staged_descriptor store)
        ∧ (media_commit store signal_id media_ids).1.committed
          = store.committed
            ++ (media_ids.filterMap (staged_descriptor store)).map
                (fun d => (signal_id, d)))
    ∧ media_commit media_store_ab 42 [10]
        = ({ staged := [staged_clip],
             committed := [(42, { media_id := 10, filename := "a.jpg" })] },
           [{ media_id := 10, filename := "a.jpg" }]) := by
  refine ⟨?_, media_commit_nodup_spec, by decide⟩
  intro store signal_id media_ids h
  induction media_ids with
  | nil => rfl
  | cons i rest ih =>
    have hf : store.staged.find? (fun m => m.media_id == i) = none := by
      have hd := h i (List.mem_cons_self i rest)
      simpa [staged_descriptor] using hd
    simp only [media_commit, hf]
    exact ih (fun j hj => h j (List.mem_cons_of_mem _ hj))

/-- C9 witness: committing one matched and one vanished handle yields exactly
the matched descriptor. -/
theorem C9_commit_media_witness :
    ([10, 99] : List Nat).Nodup
    ∧ (media_commit media_store_ab 7 [10, 99]).2
        = [10, 99].filterMap (staged_descriptor media_store_ab) :=
  ⟨by decide, (C9_commit_media.2.1 media_store_ab 7 [10, 99] (by decide)).1⟩
